import Mathlib

/-!
Verification development for the fewinery/Pilot-Theme wine-club subsystem.

Shallow embedding of:
* the wizard state machine in
  `app/components/wine-clubs/selection-wizard.tsx` (state, selection
  handlers, `validateCurrentStep`, `calculatePrice`, `calculateTotalPrice`),
* the step-3 quantity UI guards and its local `updateProductQuantity`
  helper (`step-3-quantity.tsx`),
* the guarded step navigation of `selection-wizard-container.tsx`,
* the session-storage persistence helpers in `navigation-guard.tsx`,
* the catalog client `fetchWineClubs` / `fetchWineClubDetails` /
  `sanitizeHtml` (`app/utils/winehub.ts`) together with the
  `isWineClub` type guard from `app/types/winehub.ts`.

Modelling conventions:
* JavaScript numbers used as money or positions are rationals; a separate
  `Option` layer models `NaN` / `undefined` / non-numeric values where the
  source checks for them (`none` = not a usable number).  Item quantities
  and wizard steps are integers, matching the integral counts the data
  model declares.
* Dynamic JSON payloads are an explicit `Json` inductive; absent object
  fields are `Option.none` (JavaScript `undefined`).
* `sessionStorage` under the single fixed key used by the code is an
  `Option` of the stored record; `JSON.stringify`/`JSON.parse`
  round-tripping of the plain-data state snapshot is treated as the
  identity.
* Regex-based string rewriting in `sanitizeHtml` is embedded as
  fuel-indexed scanners over character lists that reproduce the semantics
  of the concrete patterns and JavaScript global replacement (the scan
  resumes after each removed match and never rescans rebuilt text).
-/

/-! ## JavaScript-number helpers (`none` = NaN / non-numeric) -/

/-- Addition on JS numbers: `NaN` is absorbing. -/
def jsAdd : Option ℚ → Option ℚ → Option ℚ
  | some a, some b => some (a + b)
  | _, _ => none

/-- Subtraction on JS numbers: `NaN` is absorbing. -/
def jsSub : Option ℚ → Option ℚ → Option ℚ
  | some a, some b => some (a - b)
  | _, _ => none

/-- Multiplication on JS numbers: `NaN` is absorbing.  (JS also coerces
`null` to `0` in `*`; the sources never rely on that, so `none` uniformly
models every non-numeric value.) -/
def jsMul : Option ℚ → Option ℚ → Option ℚ
  | some a, some b => some (a * b)
  | _, _ => none

/-- `<` on JS numbers: any comparison with `NaN` is false. -/
def jsLt : Option ℚ → Option ℚ → Bool
  | some a, some b => a < b
  | _, _ => false

/-! ## Data model (from `app/types/winehub.ts`) -/

/-- `CaseSize` (types file): packaging tier.  `quantity` is the bottle
count of the case. -/
structure CaseSize where
  id : String
  title : String
  quantity : ℤ
  image : Option String
deriving DecidableEq, Repr

/-- `SellingPlanClubDiscount.fixedType`. -/
inductive FixedType where
  | PERCENTAGE
  | FIXED_AMOUNT
deriving DecidableEq, Repr

/-- `SellingPlanClubDiscount` (types file). -/
structure SellingPlanClubDiscount where
  fixedAmount : ℚ
  fixedType : FixedType
  description : Option String
deriving DecidableEq, Repr

/-- `SellingPlan` (types file).  Interval bookkeeping fields are carried
but never read by the embedded operations. -/
structure SellingPlan where
  id : String
  name : String
  description : Option String
  shopifyId : String
  intervalCount : ℤ
  sellingPlanClubDiscount : Option SellingPlanClubDiscount
deriving DecidableEq, Repr

/-- `CaseRestriction` (types file): per-case-size quantity bounds,
`max = none` models the JSON `null` (no limit). -/
structure CaseRestriction where
  caseSize : String
  max : Option ℤ
  min : ℤ
  suggestedQuantity : Option ℤ
deriving DecidableEq, Repr

/-- `ProductVariant` (types file), restricted to the fields the embedded
operations read.  `retailPrice : Option ℚ` models the dynamic payload the
wizard defends against (`none` = missing / NaN / non-numeric).
`caseRestrictions` is not declared on `ProductVariant` in the types file,
but `step-3-quantity.tsx` reads `product.caseRestrictions?` off the
variant (and the container's mock data carries it there), so the model
keeps it as an optional field. -/
structure ProductVariant where
  id : String
  title : String
  retailPrice : Option ℚ
  caseRestrictions : Option (List CaseRestriction)
deriving DecidableEq, Repr

/-- `MinimumOrderValue` (types file).  `value : Option ℚ` models the
dynamically typed payload field (`none` = non-numeric / NaN). -/
structure MinimumOrderValue where
  caseSize : String
  value : Option ℚ
deriving DecidableEq, Repr

/-- `WineClubDetails`, restricted to the fields `validateCurrentStep`
reads.  `minimumOrderValue` is optional in the type
(`wineClub.minimumOrderValue?.find`). -/
structure WineClubDetails where
  id : String
  movOnly : Bool
  minimumOrderValue : Option (List MinimumOrderValue)
deriving DecidableEq, Repr

/-! ## Wizard state (from `selection-wizard.tsx`) -/

/-- `SelectedProduct` (selection-wizard.tsx).  `calculatedPrice` is a JS
number (`none` = NaN, producible by the unvalidated multiplication in the
step-3 helper). -/
structure SelectedProduct where
  productVariant : ProductVariant
  quantity : ℤ
  isAddOn : Bool
  calculatedPrice : Option ℚ
deriving DecidableEq, Repr

/-- Keys of the `FormErrors` object. -/
inductive ErrField where
  | general
  | caseSize
  | sellingPlan
  | quantity
  | addOns
  | review
deriving DecidableEq, Repr

/-- `FormErrors` (selection-wizard.tsx): optional message per field plus a
per-product message map. -/
structure FormErrors where
  general : Option String := none
  caseSize : Option String := none
  sellingPlan : Option String := none
  quantity : Option String := none
  addOns : Option String := none
  review : Option String := none
  products : List (String × String) := []
deriving DecidableEq, Repr

/-- The empty `errors: {}` object. -/
def emptyErrors : FormErrors := {}

/-- `WineClubFormState` (selection-wizard.tsx). -/
structure WineClubFormState where
  currentStep : ℤ
  selectedCaseSize : Option CaseSize
  selectedSellingPlan : Option SellingPlan
  selectedProducts : List SelectedProduct
  selectedAddOns : List SelectedProduct
  errors : FormErrors
  isReviewing : Bool
  isSubmitting : Bool
deriving DecidableEq, Repr

/-- `initialState` (selection-wizard.tsx). -/
def initialState : WineClubFormState where
  currentStep := 1
  selectedCaseSize := none
  selectedSellingPlan := none
  selectedProducts := []
  selectedAddOns := []
  errors := emptyErrors
  isReviewing := false
  isSubmitting := false

/-- `setError(field, message)`: merges one message into the error map. -/
def setError (s : WineClubFormState) (f : ErrField) (msg : String) :
    WineClubFormState :=
  { s with errors :=
    match f with
    | .general => { s.errors with general := some msg }
    | .caseSize => { s.errors with caseSize := some msg }
    | .sellingPlan => { s.errors with sellingPlan := some msg }
    | .quantity => { s.errors with quantity := some msg }
    | .addOns => { s.errors with addOns := some msg }
    | .review => { s.errors with review := some msg } }

/-! ## Wizard operations (from `selection-wizard.tsx`) -/

/-- `selectCaseSize(caseSize)`: sets the case size and resets every
dependent selection and the error map in the same update. -/
def selectCaseSize (caseSize : CaseSize) (s : WineClubFormState) :
    WineClubFormState :=
  { s with
    selectedCaseSize := some caseSize
    selectedSellingPlan := none
    selectedProducts := []
    selectedAddOns := []
    errors := emptyErrors }

/-- `selectSellingPlan(sellingPlan)`: sets the plan and clears errors —
the source performs no other check. -/
def selectSellingPlan (sellingPlan : SellingPlan) (s : WineClubFormState) :
    WineClubFormState :=
  { s with
    selectedSellingPlan := some sellingPlan
    errors := emptyErrors }

/-- `goToStep(step)`: in-range step changes clear errors and set the
reviewing flag. -/
def goToStep (step : ℤ) (s : WineClubFormState) : WineClubFormState :=
  if 1 ≤ step ∧ step ≤ 4 then
    { s with errors := emptyErrors, currentStep := step,
             isReviewing := step = 4 }
  else s

/-- `goToNextStep`. -/
def goToNextStep (s : WineClubFormState) : WineClubFormState :=
  if s.currentStep < 4 then
    { s with currentStep := s.currentStep + 1,
             isReviewing := s.currentStep + 1 = 4,
             errors := emptyErrors }
  else s

/-- `goToPreviousStep`. -/
def goToPreviousStep (s : WineClubFormState) : WineClubFormState :=
  if s.currentStep > 1 then
    { s with currentStep := s.currentStep - 1,
             isReviewing := false,
             errors := emptyErrors }
  else s

/-- `calculatePrice(productVariant, quantity, state)`: validates the
retail price and the quantity (fallback `0` for invalid values) and
multiplies.  The individual-price and selling-plan-discount branches are
absent from the source (its inline notes record them as not implemented),
so the state argument is never consulted. -/
def calculatePrice (productVariant : ProductVariant) (quantity : ℤ)
    (_state : WineClubFormState) : ℚ :=
  let basePrice : ℚ :=
    match productVariant.retailPrice with
    | some p => if p < 0 then 0 else p
    | none => 0
  let q : ℤ := if quantity < 0 then 0 else quantity
  basePrice * (q : ℚ)

/-- Replace the first element satisfying `pred` (JS
`findIndex` + `map((p, i) => i === existingIndex ? f(p) : p)`). -/
def updateFirstWhere (pred : α → Bool) (f : α → α) : List α → List α
  | [] => []
  | x :: xs => if pred x then f x :: xs else x :: updateFirstWhere pred f xs

/-- Remove the first element satisfying `pred` (JS
`filter((_, i) => i !== existingIndex)`; removes nothing when the index
is `-1`). -/
def removeFirstWhere (pred : α → Bool) : List α → List α
  | [] => []
  | x :: xs => if pred x then xs else x :: removeFirstWhere pred xs

/-- `updateProductQuantity(productVariant, quantity, isAddOn)`
(selection-wizard.tsx, lines 196-258): pure upsert / removal keyed by
variant id.  The source contains no per-product max check and no
case-capacity check. -/
def updateProductQuantity (productVariant : ProductVariant) (quantity : ℤ)
    (isAddOn : Bool) (s : WineClubFormState) : WineClubFormState :=
  let products := if isAddOn then s.selectedAddOns else s.selectedProducts
  let pred : SelectedProduct → Bool :=
    fun p => p.productVariant.id = productVariant.id
  let updatedProducts : List SelectedProduct :=
    if products.any pred then
      if quantity ≤ 0 then
        removeFirstWhere pred products
      else
        updateFirstWhere pred
          (fun p =>
            { p with quantity := quantity,
                     calculatedPrice :=
                       some (calculatePrice p.productVariant quantity s) })
          products
    else if quantity > 0 then
      products ++
        [{ productVariant := productVariant, quantity := quantity,
           isAddOn := isAddOn,
           calculatedPrice :=
             some (calculatePrice productVariant quantity s) }]
    else products
  if isAddOn then { s with selectedAddOns := updatedProducts }
  else { s with selectedProducts := updatedProducts }

/-- Result record of `calculateTotalPrice`. -/
structure TotalPrice where
  subtotal : Option ℚ
  subscriptionTotal : Option ℚ
  addOnTotal : Option ℚ
  grandTotal : Option ℚ
  discountAmount : Option ℚ
  originalSubtotal : Option ℚ
deriving DecidableEq, Repr

/-- `calculateTotalPrice(state)` (selection-wizard.tsx): reductions over
the selected products.  The original subtotal multiplies the raw
`retailPrice` without validation, so NaN can propagate there. -/
def calculateTotalPrice (s : WineClubFormState) : TotalPrice :=
  let originalSubscriptionTotal :=
    s.selectedProducts.foldl
      (fun sum p =>
        jsAdd sum (jsMul p.productVariant.retailPrice (some (p.quantity : ℚ))))
      (some 0)
  let subscriptionTotal :=
    s.selectedProducts.foldl (fun sum p => jsAdd sum p.calculatedPrice)
      (some 0)
  let discountAmount := jsSub originalSubscriptionTotal subscriptionTotal
  let addOnTotal :=
    s.selectedAddOns.foldl (fun sum p => jsAdd sum p.calculatedPrice)
      (some 0)
  let subtotal := subscriptionTotal
  let grandTotal := jsAdd subtotal addOnTotal
  { subtotal := subtotal
    subscriptionTotal := subscriptionTotal
    addOnTotal := addOnTotal
    grandTotal := grandTotal
    discountAmount := discountAmount
    originalSubtotal := originalSubscriptionTotal }

/-- Best-effort decimal rendering of `Number.prototype.toFixed(2)`; only
used to build error-message strings, which no claim inspects. -/
def toFixed2 (q : ℚ) : String :=
  let cents : ℤ := ⌊q * 100 + 1 / 2⌋
  toString ((cents : ℚ) / 100)

/-- `toFixed(2)` on a JS number that may be NaN. -/
def toFixed2Opt : Option ℚ → String
  | some q => toFixed2 q
  | none => "NaN"

/-- `validateCurrentStep()` (selection-wizard.tsx, lines 261-366).
Returns the boolean result together with the state after the queued
`clearErrors` / `setError` updates.  The step-3 case-restriction loop in
the source is an explicit no-op ("skip this validation for now") and the
minimum-order-value lookup is performed regardless of `movOnly`. -/
def validateCurrentStep (wineClub : WineClubDetails)
    (s : WineClubFormState) : Bool × WineClubFormState :=
  let s0 := { s with errors := emptyErrors }
  if s.currentStep = 1 then
    match s.selectedCaseSize with
    | none => (false, setError s0 .caseSize "Please select a case size")
    | some _ => (true, s0)
  else if s.currentStep = 2 then
    match s.selectedSellingPlan with
    | none =>
      (false,
       setError s0 .sellingPlan "Please select a subscription frequency")
    | some _ => (true, s0)
  else if s.currentStep = 3 then
    if s.selectedProducts.length = 0 then
      (false, setError s0 .quantity "Please select at least one wine")
    else
      let pricing := calculateTotalPrice s
      let minimumOrderValue : Option MinimumOrderValue :=
        match s.selectedCaseSize with
        | some cs =>
          (wineClub.minimumOrderValue.getD []).find?
            (fun mov => mov.caseSize = cs.id)
        | none => none
      match minimumOrderValue with
      | some mov =>
        match mov.value with
        | none => (true, s0)
        | some movValue =>
          if movValue < 0 then (true, s0)
          else if jsLt pricing.subscriptionTotal (some movValue) then
            (false,
             setError s0 .quantity
               ("Minimum order value is $" ++ toFixed2 movValue ++
                " for this case size. Current total: $" ++
                toFixed2Opt pricing.subscriptionTotal))
          else (true, s0)
      | none => (true, s0)
  else if s.currentStep = 4 then
    let reviewPricing := calculateTotalPrice s
    let reviewMov : Option MinimumOrderValue :=
      match s.selectedCaseSize with
      | some cs =>
        (wineClub.minimumOrderValue.getD []).find?
          (fun mov => mov.caseSize = cs.id)
      | none => none
    let fallthrough : Bool :=
      s.selectedCaseSize.isSome ∧ s.selectedSellingPlan.isSome ∧
        s.selectedProducts.length > 0
    match reviewMov with
    | some mov =>
      match mov.value with
      | none => (fallthrough, s0)
      | some movValue =>
        if movValue < 0 then (fallthrough, s0)
        else if jsLt reviewPricing.subscriptionTotal (some movValue) then
          (false,
           setError s0 .review
             ("Minimum order value is $" ++ toFixed2 movValue ++
              ". Please add more wines or select a different case size."))
        else (fallthrough, s0)
    | none => (fallthrough, s0)
  else (false, s0)

/-- The container's next-step handler
(`selection-wizard-container.tsx`): advance only when
`validateCurrentStep()` succeeds. -/
def guardedNextStep (wineClub : WineClubDetails)
    (s : WineClubFormState) : WineClubFormState :=
  match validateCurrentStep wineClub s with
  | (ok, s1) => if ok then goToNextStep s1 else s1

/-! ## Step-3 quantity UI (from `step-3-quantity.tsx`) -/

/-- `getCaseRestrictions(product)`: the restriction entry for the active
case size, `none` when no case size is selected or the variant carries no
matching restriction. -/
def getCaseRestrictions (selectedCaseSize : Option CaseSize)
    (product : ProductVariant) : Option CaseRestriction :=
  match selectedCaseSize with
  | none => none
  | some cs =>
    product.caseRestrictions.bind
      (fun rs => rs.find? (fun r => r.caseSize = cs.id))

/-- `isAtMaxQuantity(product, currentQuantity)`: false when there is no
restriction or its `max` is null. -/
def isAtMaxQuantity (selectedCaseSize : Option CaseSize)
    (product : ProductVariant) (currentQuantity : ℤ) : Bool :=
  match getCaseRestrictions selectedCaseSize product with
  | none => false
  | some r =>
    match r.max with
    | none => false
    | some m => currentQuantity ≥ m

/-- `isAtMinQuantity(product, currentQuantity)`. -/
def isAtMinQuantity (selectedCaseSize : Option CaseSize)
    (product : ProductVariant) (currentQuantity : ℤ) : Bool :=
  match getCaseRestrictions selectedCaseSize product with
  | none => currentQuantity ≤ 0
  | some r => currentQuantity ≤ r.min

/-- The local `updateProductQuantity` helper of `step-3-quantity.tsx`
(lines 752-781): quantity `≤ 0` removes the entry, otherwise the entry is
replaced by (or appended as) a fresh record whose price is the raw,
unvalidated `retailPrice * quantity`. -/
def step3UpdateProductQuantity (selectedProducts : List SelectedProduct)
    (product : ProductVariant) (quantity : ℤ) : List SelectedProduct :=
  let pred : SelectedProduct → Bool :=
    fun p => p.productVariant.id = product.id
  if quantity ≤ 0 then
    removeFirstWhere pred selectedProducts
  else
    let updatedProduct : SelectedProduct :=
      { productVariant := product, quantity := quantity, isAddOn := false,
        calculatedPrice := jsMul product.retailPrice (some (quantity : ℚ)) }
    if selectedProducts.any pred then
      updateFirstWhere pred (fun _ => updatedProduct) selectedProducts
    else
      selectedProducts ++ [updatedProduct]

/-- Quantity shown for a variant: the first matching entry, `0` when the
variant is unselected (`find(...)?.quantity || 0` in the component). -/
def selectedQuantityOf (products : List SelectedProduct)
    (variantId : String) : ℤ :=
  match products.find? (fun p => p.productVariant.id = variantId) with
  | some p => p.quantity
  | none => 0

/-- `totalSelectedItems`: sum of the main-wine quantities. -/
def totalSelectedItems (products : List SelectedProduct) : ℤ :=
  products.foldl (fun sum p => sum + p.quantity) 0

/-- `caseSizeCapacity = selectedCaseSize?.quantity || 12`. -/
def caseSizeCapacity (selectedCaseSize : Option CaseSize) : ℤ :=
  match selectedCaseSize with
  | some cs => if cs.quantity = 0 then 12 else cs.quantity
  | none => 12

/-- One click on a product card's increment button
(`ProductQuantityCard.incrementQuantity` wired through
`handleQuantityChange`): a no-op unless the product is below its
restriction max (`isAtMaxQuantity`) and the case still has room
(`canAddMore`). -/
def step3IncrementClick (s : WineClubFormState)
    (product : ProductVariant) : WineClubFormState :=
  let selectedQuantity := selectedQuantityOf s.selectedProducts product.id
  let canAddMore :=
    totalSelectedItems s.selectedProducts < caseSizeCapacity s.selectedCaseSize
  if ¬isAtMaxQuantity s.selectedCaseSize product selectedQuantity ∧
      canAddMore then
    { s with selectedProducts :=
        (step3UpdateProductQuantity s.selectedProducts product
          (selectedQuantity + 1)) }
  else s

/-! ## Session-storage persistence (from `navigation-guard.tsx`) -/

/-- The record `JSON.stringify`-ed under the single
`"wineclub-wizard-state"` key.  Timestamps are `Date.now()` epoch
milliseconds. -/
structure StoredWizardRecord where
  state : WineClubFormState
  wineClubId : String
  timestamp : ℤ
deriving DecidableEq, Repr

/-- The session store holds at most the one record under the fixed key. -/
def WizardStore : Type := Option StoredWizardRecord

/-- The 24-hour staleness window of `loadWizardState`, in milliseconds. -/
def staleWindowMs : ℤ := 24 * 60 * 60 * 1000

/-- `saveWizardState(state, wineClubId)`: overwrite the record with a
fresh timestamp. -/
def saveWizardState (state : WineClubFormState) (wineClubId : String)
    (now : ℤ) (_store : WizardStore) : WizardStore :=
  some { state := state, wineClubId := wineClubId, timestamp := now }

/-- `loadWizardState(wineClubId)`: returns the snapshot only for a
matching club id within the staleness window; otherwise removes the
record and returns null.  The result is the returned value paired with
the store afterwards. -/
def loadWizardState (wineClubId : String) (now : ℤ)
    (store : WizardStore) : Option WineClubFormState × WizardStore :=
  match store with
  | none => (none, none)
  | some rec =>
    let isSameClub := rec.wineClubId = wineClubId
    let isRecent := now - rec.timestamp < staleWindowMs
    if isSameClub ∧ isRecent then (some rec.state, some rec)
    else (none, none)

/-- `clearWizardState()`. -/
def clearWizardState (_store : WizardStore) : WizardStore := none

/-! ## Dynamic JSON payloads (catalog client, `app/utils/winehub.ts`) -/

/-- Untyped upstream JSON value.  (JS `NaN` numbers are not
representable; no embedded code path depends on one.) -/
inductive Json where
  | null
  | bool (b : Bool)
  | num (q : ℚ)
  | str (s : String)
  | arr (elems : List Json)
  | obj (fields : List (String × Json))

/-- Property access `value.key`: `undefined` (here `none`) for absent
keys and for every non-object receiver the client reads from.  Arrays are
`typeof "object"` in JS but carry none of the accessed keys. -/
def Json.getField : Json → String → Option Json
  | .obj fields, key => (fields.find? (fun kv => kv.fst = key)).map (fun kv => kv.snd)
  | _, _ => none

/-- JS truthiness of a possibly-absent value. -/
def jsTruthy : Option Json → Bool
  | none => false
  | some .null => false
  | some (.bool b) => b
  | some (.num q) => q ≠ 0
  | some (.str s) => s ≠ ""
  | some (.arr _) => true
  | some (.obj _) => true

/-- `a || b` on payload values. -/
def jsOrField (a b : Option Json) : Option Json :=
  if jsTruthy a then a else b

/-- Decimal rendering used by `String(number)`; exact for integers, a
best-effort fraction otherwise (the client only stringifies ids, whose
exact spelling no claim inspects). -/
def ratToJsString (q : ℚ) : String :=
  if q.den = 1 then toString q.num
  else toString q.num ++ "/" ++ toString q.den

/-- `String(x)` coercion.  Array/object renderings are approximated by
fixed strings (only ever applied to id fields). -/
def jsToString : Option Json → String
  | none => "undefined"
  | some .null => "null"
  | some (.bool true) => "true"
  | some (.bool false) => "false"
  | some (.num q) => ratToJsString q
  | some (.str s) => s
  | some (.arr _) => ""
  | some (.obj _) => "[object Object]"

/-- `Array.isArray(v) ? v : []` normalization of a payload field. -/
def jsArrayOrEmpty (v : Option Json) : List Json :=
  match v with
  | some (.arr xs) => xs
  | _ => []

/-- `v || null` normalization of a payload field. -/
def jsFieldOrNull (v : Option Json) : Json :=
  match jsOrField v (some .null) with
  | some j => j
  | none => .null

/-- A club summary after the listing normalization block of
`fetchWineClubs` (lines 133-149).  Fields the block does not rewrite
(`name`, `caseType`) are carried raw, as the object spread does. -/
structure NormClub where
  id : String
  shopifyId : String
  name : Option Json
  type : Json
  caseType : Option Json
  position : ℚ
  description : Json
  image : Json
  caseSizes : List Json
  sellingPlans : List Json
  sellingPlanPerks : List Json

/-- The checks of the `isWineClub` type guard
(`app/types/winehub.ts`) on the fields the normalization has not already
forced: `id`/`shopifyId` are `String(...)` results and the collection
fields are arrays by construction, so only `name`, `type` and `caseType`
can still fail. -/
def isWineClubFields (name : Option Json) (type : Json)
    (caseType : Option Json) : Bool :=
  (match name with
   | some (.str _) => true
   | _ => false) &&
  (match type with
   | .str s => s = "Manual" ∨ s = "Automatic"
   | _ => false) &&
  (match caseType with
   | some (.str s) => s = "Bottle" ∨ s = "Case" ∨ s = "Mixed"
   | _ => false)

/-- `isWineClub` applied to a normalized listing entry. -/
def isWineClub (n : NormClub) : Bool :=
  isWineClubFields n.name n.type n.caseType

/-- The per-entry normalization of `fetchWineClubs`: non-objects are
dropped (`!club || typeof club !== "object"`; arrays pass the `typeof`
test but fail the guard later because every accessed key is absent). -/
def normalizeListedClub (entry : Json) : Option NormClub :=
  match entry with
  | .arr _ | .obj _ =>
    some
      { id := jsToString (entry.getField "id")
        shopifyId :=
          jsToString
            (jsOrField (entry.getField "shopifyId")
              (jsOrField (entry.getField "shopify_id") (some (.str ""))))
        name := entry.getField "name"
        type := jsFieldOrNull (entry.getField "type")
        caseType := entry.getField "caseType"
        position :=
          match entry.getField "position" with
          | some (.num q) => q
          | _ => 999
        description := jsFieldOrNull (entry.getField "description")
        image := jsFieldOrNull (entry.getField "image")
        caseSizes := jsArrayOrEmpty (entry.getField "caseSizes")
        sellingPlans := jsArrayOrEmpty (entry.getField "sellingPlans")
        sellingPlanPerks := jsArrayOrEmpty (entry.getField "sellingPlanPerks") }
  | _ => none

/-- `data.map(normalize).filter(club => club !== null)`. -/
def listedValidClubs (entries : List Json) : List NormClub :=
  entries.filterMap
    (fun e =>
      (normalizeListedClub e).bind
        (fun n => if isWineClub n then some n else none))

/-- The sort key of `normalizedClubs.sort((a, b) =>
(a.position || 999) - (b.position || 999))`: `position` is already
numeric after normalization, but `0` is falsy and also becomes `999`. -/
def sortPositionKey (n : NormClub) : ℚ :=
  if n.position = 0 then 999 else n.position

/-- Stable insertion step: an element is placed before the first later
element with a key not smaller than its own. -/
def insertByKey (key : α → ℚ) (x : α) : List α → List α
  | [] => [x]
  | y :: ys => if key x ≤ key y then x :: y :: ys else y :: insertByKey key x ys

/-- Stable ascending sort by a numeric key.  `Array.prototype.sort` with
the comparator `key a - key b` is exactly a stable ascending sort on the
key (stability is guaranteed since ES2019), which insertion of earlier
elements in front of equal keys realizes. -/
def sortByKey (key : α → ℚ) : List α → List α
  | [] => []
  | x :: xs => insertByKey key x (sortByKey key xs)

/-- What the upstream HTTP exchange produced, as observed by the client
after `await fetch` / `await response.text()` / `JSON.parse`. -/
inductive ResponseBody where
  | emptyBody
  | notJson
  | jsonVal (j : Json)

/-- `fetchFailed` covers a network error and the timeout abort — both
reach the client as a thrown exception from `fetchWithTimeout`. -/
inductive UpstreamResult where
  | fetchFailed
  | response (ok : Bool) (body : ResponseBody)

/-- `fetchWineClubs` (winehub.ts, lines 57-192): every failure mode
(missing shop domain, thrown fetch, non-2xx status, empty or unparsable
body, non-array payload) collapses to `[]`; an array payload is
normalized entry-wise, filtered through the type guard and sorted. -/
def fetchWineClubs (shopDomain : String) (upstream : UpstreamResult) :
    List NormClub :=
  if shopDomain = "" then []
  else
    match upstream with
    | .fetchFailed => []
    | .response ok body =>
      if ¬ok then []
      else
        match body with
        | .emptyBody => []
        | .notJson => []
        | .jsonVal j =>
          match j with
          | .arr entries => sortByKey sortPositionKey (listedValidClubs entries)
          | _ => []

/-- A detailed club after the normalization block of
`fetchWineClubDetails` (lines 294-324). -/
structure NormClubDetails where
  id : String
  shopifyId : String
  name : Option Json
  type : Json
  caseType : Option Json
  position : ℚ
  description : Json
  image : Json
  caseSizes : List Json
  sellingPlans : List Json
  sellingPlanPerks : List Json
  productData : List Json
  sellingPlanVariants : List Json
  minimumOrderValueData : List Json
  signUpProductOffer : Json
  movOnly : Bool
  isPlaylist : Bool
  useSeasons : Bool

/-- `fetchWineClubDetails` (winehub.ts, lines 208-371): the same failure
collapse as the listing, plus the structural checks `!data || typeof data
!== "object"`, the truthiness of `id`/`name`, and the `isWineClub` guard
on the normalized record; all roads that fail them return `null`. -/
def fetchWineClubDetails (shopDomain clubId : String)
    (upstream : UpstreamResult) : Option NormClubDetails :=
  if shopDomain = "" then none
  else if clubId = "" then none
  else
    match upstream with
    | .fetchFailed => none
    | .response ok body =>
      if ¬ok then none
      else
        match body with
        | .emptyBody => none
        | .notJson => none
        | .jsonVal j =>
          match j with
          | .arr _ | .obj _ =>
            if ¬(jsTruthy (j.getField "id") ∧ jsTruthy (j.getField "name"))
            then none
            else
              let normalized : NormClubDetails :=
                { id := jsToString (j.getField "id")
                  shopifyId :=
                    jsToString
                      (jsOrField (j.getField "shopifyId")
                        (jsOrField (j.getField "shopify_id")
                          (some (.str ""))))
                  name := j.getField "name"
                  type := jsFieldOrNull (j.getField "type")
                  caseType := j.getField "caseType"
                  position :=
                    match j.getField "position" with
                    | some (.num q) => q
                    | _ => 999
                  description := jsFieldOrNull (j.getField "description")
                  image := jsFieldOrNull (j.getField "image")
                  caseSizes := jsArrayOrEmpty (j.getField "caseSizes")
                  sellingPlans := jsArrayOrEmpty (j.getField "sellingPlans")
                  sellingPlanPerks :=
                    jsArrayOrEmpty (j.getField "sellingPlanPerks")
                  productData := jsArrayOrEmpty (j.getField "productData")
                  sellingPlanVariants :=
                    jsArrayOrEmpty (j.getField "sellingPlanVariants")
                  minimumOrderValueData :=
                    jsArrayOrEmpty (j.getField "minimumOrderValue")
                  signUpProductOffer :=
                    jsFieldOrNull (j.getField "signUpProductOffer")
                  movOnly :=
                    match j.getField "movOnly" with
                    | some (.bool b) => b
                    | _ => false
                  isPlaylist :=
                    match j.getField "isPlaylist" with
                    | some (.bool b) => b
                    | _ => false
                  useSeasons :=
                    match j.getField "useSeasons" with
                    | some (.bool b) => b
                    | _ => false }
              if isWineClubFields normalized.name normalized.type
                  normalized.caseType
              then some normalized
              else none
          | _ => none

/-! ## `sanitizeHtml` (winehub.ts, lines 388-408)

Each `replace(/pattern/gi, "")` is a single left-to-right scan of the
input; after a match the scan resumes right after it and never revisits
the already-emitted output, exactly as JavaScript global replacement
behaves.  Patterns are fixed, so each regex is specialized to a scanner;
`fuel` (instantiated with the input length) only forces termination. -/

/-- Case-insensitive prefix test; the pattern is given in lowercase. -/
def startsWithCI : List Char → List Char → Bool
  | [], _ => true
  | _ :: _, [] => false
  | p :: ps, c :: cs => (c.toLower == p) && startsWithCI ps cs

/-- Exact prefix test. -/
def startsWithLit : List Char → List Char → Bool
  | [], _ => true
  | _ :: _, [] => false
  | p :: ps, c :: cs => (c == p) && startsWithLit ps cs

/-- Exact substring test. -/
def hasSub (needle : List Char) : List Char → Bool
  | [] => needle.isEmpty
  | c :: cs => startsWithLit needle (c :: cs) || hasSub needle cs

/-- JS regex `\w` (ASCII word character). -/
def isWordChar (c : Char) : Bool :=
  c.isAlphanum || c == '_'

/-- JS regex `\s` (the ASCII part; the sanitized patterns never rely on
Unicode whitespace). -/
def isJsSpace (c : Char) : Bool :=
  c == ' ' || c == '\t' || c == '\n' || c == '\r' ||
    c.val = 11 || c.val = 12

/-- First pattern of `pats` that is a case-insensitive prefix of `l`,
returning its length (regex alternation tries alternatives in order). -/
def firstAltLen (pats : List (List Char)) (l : List Char) : Option Nat :=
  match pats with
  | [] => none
  | p :: ps => if startsWithCI p l then some p.length else firstAltLen ps l

/-- Remainder of `l` after the first case-insensitive occurrence of
`"</script>"`, if any. -/
def dropThroughCloseScript (fuel : Nat) (l : List Char) :
    Option (List Char) :=
  match fuel, l with
  | _, [] => none
  | 0, _ => none
  | fuel + 1, c :: cs =>
    if startsWithCI ("</script>".toList) (c :: cs) then some (List.drop 8 cs)
    else dropThroughCloseScript fuel cs

/-- `/<script\b[^<]*(?:(?!<\/script>)<[^<]*)*<\/script>/gi`: removes a
`<script` opening (with a word boundary after the tag name) together with
everything up to and including the first subsequent `</script>`; with no
closing tag there is no match and the text is kept. -/
def scanScriptTags (fuel : Nat) (l : List Char) : List Char :=
  match fuel, l with
  | _, [] => []
  | 0, l => l
  | fuel + 1, c :: cs =>
    if startsWithCI ("<script".toList) (c :: cs) &&
        (match List.drop 6 cs with
         | [] => true
         | d :: _ => ¬isWordChar d) then
      match dropThroughCloseScript cs.length (List.drop 6 cs) with
      | some rest => scanScriptTags fuel rest
      | none => c :: scanScriptTags fuel cs
    else c :: scanScriptTags fuel cs

/-- Remainder of `l` after its first `>`, if any (`[^>]*>`). -/
def dropThroughGt (fuel : Nat) (l : List Char) : Option (List Char) :=
  match fuel, l with
  | _, [] => none
  | 0, _ => none
  | fuel + 1, c :: cs =>
    if c == '>' then some cs else dropThroughGt fuel cs

/-- The five element names of the open/close tag patterns. -/
def dangerTagNames : List (List Char) :=
  ["iframe", "object", "embed", "form", "input"].map String.toList

/-- `/<(iframe|object|embed|form|input)[^>]*>/gi`: an opening `<`, one of
the names, then everything up to and including the first `>`; without a
`>` there is no match. -/
def scanOpenTags (fuel : Nat) (l : List Char) : List Char :=
  match fuel, l with
  | _, [] => []
  | 0, l => l
  | fuel + 1, c :: cs =>
    if c == '<' then
      match firstAltLen dangerTagNames cs with
      | some n =>
        match dropThroughGt cs.length (List.drop n cs) with
        | some rest => scanOpenTags fuel rest
        | none => c :: scanOpenTags fuel cs
      | none => c :: scanOpenTags fuel cs
    else c :: scanOpenTags fuel cs

/-- Global case-insensitive removal of a fixed set of literal
alternatives (used for `/<\/(iframe|object|embed|form|input)>/gi` and
`/javascript:/gi`). -/
def scanLiterals (pats : List (List Char)) (fuel : Nat) (l : List Char) :
    List Char :=
  match fuel, l with
  | _, [] => []
  | 0, l => l
  | fuel + 1, c :: cs =>
    match firstAltLen pats (c :: cs) with
    | some n => scanLiterals pats fuel (List.drop (n - 1) cs)
    | none => c :: scanLiterals pats fuel cs

/-- The closing-tag literals. -/
def closeTagPats : List (List Char) :=
  ["</iframe>", "</object>", "</embed>", "</form>", "</input>"].map
    String.toList

/-- `/on\w+\s*=/gi`: `on`, at least one word character, optional
whitespace, `=`. -/
def scanEventHandlers (fuel : Nat) (l : List Char) : List Char :=
  match fuel, l with
  | _, [] => []
  | 0, l => l
  | fuel + 1, c :: cs =>
    if startsWithCI ("on".toList) (c :: cs) then
      let afterOn := List.drop 1 cs
      let wordPart := afterOn.takeWhile isWordChar
      if wordPart.length > 0 then
        match (afterOn.drop wordPart.length).dropWhile isJsSpace with
        | '=' :: rest => scanEventHandlers fuel rest
        | _ => c :: scanEventHandlers fuel cs
      else c :: scanEventHandlers fuel cs
    else c :: scanEventHandlers fuel cs

/-- `/data:(?!image\/)/gi`: removes `data:` unless immediately followed
by `image/`; the lookahead consumes nothing. -/
def scanDataUrls (fuel : Nat) (l : List Char) : List Char :=
  match fuel, l with
  | _, [] => []
  | 0, l => l
  | fuel + 1, c :: cs =>
    if startsWithCI ("data:".toList) (c :: cs) &&
        ¬startsWithCI ("image/".toList) (List.drop 4 cs) then
      scanDataUrls fuel (List.drop 4 cs)
    else c :: scanDataUrls fuel cs

/-- `sanitizeHtml(html)`: the guard `if (!html) return ""` followed by
the six chained replacements, in source order. -/
def sanitizeHtml (html : List Char) : List Char :=
  if html.isEmpty then []
  else
    let s1 := scanScriptTags html.length html
    let s2 := scanOpenTags s1.length s1
    let s3 := scanLiterals closeTagPats s2.length s2
    let s4 := scanEventHandlers s3.length s3
    let s5 := scanLiterals [("javascript:".toList)] s4.length s4
    scanDataUrls s5.length s5

/-! ## Supporting lemmas -/

theorem foldl_add_quantity (l : List SelectedProduct) (a : ℤ) :
    l.foldl (fun sum p => sum + p.quantity) a =
      a + l.foldl (fun sum p => sum + p.quantity) 0 := by
  induction l generalizing a with
  | nil => simp
  | cons x xs ih =>
    simp only [List.foldl_cons, Int.zero_add]
    rw [ih (a + x.quantity), ih x.quantity]
    ring

theorem totalSelectedItems_cons (p : SelectedProduct)
    (l : List SelectedProduct) :
    totalSelectedItems (p :: l) = p.quantity + totalSelectedItems l := by
  unfold totalSelectedItems
  simp only [List.foldl_cons, Int.zero_add]
  exact foldl_add_quantity l p.quantity

theorem selectedQuantityOf_cons (p : SelectedProduct)
    (l : List SelectedProduct) (vid : String) :
    selectedQuantityOf (p :: l) vid =
      if p.productVariant.id = vid then p.quantity
      else selectedQuantityOf l vid := by
  unfold selectedQuantityOf
  by_cases h : p.productVariant.id = vid <;> simp [List.find?_cons, h]

theorem selectedQuantityOf_nonneg (l : List SelectedProduct) (vid : String)
    (h : ∀ p ∈ l, 0 ≤ p.quantity) : 0 ≤ selectedQuantityOf l vid := by
  unfold selectedQuantityOf
  cases hf : l.find? (fun p => p.productVariant.id = vid) with
  | none => simp
  | some p => exact h p (List.mem_of_find?_eq_some hf)

/-- The record the step-3 helper writes for quantity `q` of variant
`v`. -/
def step3UpdatedRecord (v : ProductVariant) (q : ℤ) : SelectedProduct :=
  { productVariant := v, quantity := q, isAddOn := false,
    calculatedPrice := jsMul v.retailPrice (some (q : ℚ)) }

theorem step3Upd_cons_of_eq (xs : List SelectedProduct)
    (x : SelectedProduct) (v : ProductVariant) (q : ℤ) (hq : 0 < q)
    (hx : x.productVariant.id = v.id) :
    step3UpdateProductQuantity (x :: xs) v q = step3UpdatedRecord v q :: xs := by
  simp [step3UpdateProductQuantity, not_le.mpr hq, List.any_cons, hx,
    updateFirstWhere, step3UpdatedRecord]

theorem step3Upd_cons_of_ne (xs : List SelectedProduct)
    (x : SelectedProduct) (v : ProductVariant) (q : ℤ) (hq : 0 < q)
    (hx : ¬x.productVariant.id = v.id) :
    step3UpdateProductQuantity (x :: xs) v q =
      x :: step3UpdateProductQuantity xs v q := by
  by_cases ha : xs.any (fun p => p.productVariant.id = v.id) <;>
    simp [step3UpdateProductQuantity, not_le.mpr hq, List.any_cons, hx, ha,
      updateFirstWhere]

theorem totalSelectedItems_step3Upd (l : List SelectedProduct)
    (v : ProductVariant) (q : ℤ) (hq : 0 < q) :
    totalSelectedItems (step3UpdateProductQuantity l v q) =
      totalSelectedItems l - selectedQuantityOf l v.id + q := by
  induction l with
  | nil =>
    simp [step3UpdateProductQuantity, not_le.mpr hq, selectedQuantityOf,
      totalSelectedItems]
  | cons x xs ih =>
    by_cases hx : x.productVariant.id = v.id
    · rw [step3Upd_cons_of_eq xs x v q hq hx, totalSelectedItems_cons,
        totalSelectedItems_cons, selectedQuantityOf_cons]
      simp [step3UpdatedRecord, hx]
      ring
    · rw [step3Upd_cons_of_ne xs x v q hq hx, totalSelectedItems_cons,
        totalSelectedItems_cons, selectedQuantityOf_cons, ih]
      simp [hx]
      ring

theorem selectedQuantityOf_step3Upd (l : List SelectedProduct)
    (v : ProductVariant) (q : ℤ) (hq : 0 < q) :
    selectedQuantityOf (step3UpdateProductQuantity l v q) v.id = q := by
  induction l with
  | nil =>
    simp [step3UpdateProductQuantity, not_le.mpr hq, selectedQuantityOf,
      step3UpdatedRecord]
  | cons x xs ih =>
    by_cases hx : x.productVariant.id = v.id
    · rw [step3Upd_cons_of_eq xs x v q hq hx, selectedQuantityOf_cons]
      simp [step3UpdatedRecord]
    · rw [step3Upd_cons_of_ne xs x v q hq hx, selectedQuantityOf_cons, ih]
      simp [hx]

/-! ## Concrete fixtures (used by counterexamples and witnesses) -/

/-- The "6 Bottles" case size of the container's mock club. -/
def case6 : CaseSize :=
  { id := "6-bottles", title := "6 Bottles", quantity := 6, image := none }

/-- A main wine restricted to at most 6 bottles in a 6-bottle case. -/
def wineA : ProductVariant :=
  { id := "wine-1"
    title := "Cabernet Sauvignon"
    retailPrice := some 30
    caseRestrictions :=
      some [{ caseSize := "6-bottles", max := some 6, min := 1,
              suggestedQuantity := some 2 }] }

/-- A wine with no restrictions, retailing at 10. -/
def wineB : ProductVariant :=
  { id := "wine-2", title := "Chardonnay", retailPrice := some 10,
    caseRestrictions := none }

/-- A monthly plan carrying a 50% percentage discount descriptor. -/
def planMonthly : SellingPlan :=
  { id := "monthly"
    name := "Monthly Delivery"
    description := none
    shopifyId := "gid-monthly"
    intervalCount := 1
    sellingPlanClubDiscount :=
      some { fixedAmount := 50, fixedType := .PERCENTAGE,
             description := none } }

/-- A club that does NOT enforce minimum order values (`movOnly = false`)
but still lists a $100 MOV entry for the 6-bottle case. -/
def clubNoMovOnly : WineClubDetails :=
  { id := "club-1"
    movOnly := false
    minimumOrderValue := some [{ caseSize := "6-bottles", value := some 100 }] }

/-- Fresh wizard state with the 6-bottle case selected. -/
def stateCase6 : WineClubFormState :=
  { initialState with selectedCaseSize := some case6 }

/-! ## C1 -/

/-- C1 (counterexample): with the 6-bottle case active and `wineA`
restricted to `max = 6`, `updateProductQuantity` accepts quantity `7`
(which also exceeds the 6-bottle capacity) and mutates the state, so the
mutation operation itself rejects nothing. -/
theorem updateProductQuantity_accepts_excess_quantity :
    getCaseRestrictions (some case6) wineA =
      some { caseSize := "6-bottles", max := some 6, min := 1,
             suggestedQuantity := some 2 } ∧
    case6.quantity = 6 ∧
    updateProductQuantity wineA 7 false stateCase6 ≠ stateCase6 ∧
    (updateProductQuantity wineA 7 false stateCase6).selectedProducts.map
        (fun p => p.quantity) = [7] := by
  decide

/-- C1 (amended): the bound enforcement lives in the step-3 increment
handler, not in `updateProductQuantity`: a click on a product card's
increment button either changes nothing or leaves the total main-wine
quantity within the case capacity and the clicked product within its
`CaseRestriction` max. -/
theorem step3IncrementClick_respects_bounds (s : WineClubFormState)
    (v : ProductVariant) (cs : CaseSize)
    (hcs : s.selectedCaseSize = some cs) (hpos : 0 < cs.quantity)
    (hnn : ∀ p ∈ s.selectedProducts, 0 ≤ p.quantity) :
    step3IncrementClick s v = s ∨
      (totalSelectedItems (step3IncrementClick s v).selectedProducts ≤
          cs.quantity ∧
        ∀ r m, getCaseRestrictions s.selectedCaseSize v = some r →
          r.max = some m →
          selectedQuantityOf (step3IncrementClick s v).selectedProducts
              v.id ≤ m) := by
  by_cases hg :
      ¬(isAtMaxQuantity s.selectedCaseSize v
          (selectedQuantityOf s.selectedProducts v.id) = true) ∧
        totalSelectedItems s.selectedProducts <
          caseSizeCapacity s.selectedCaseSize
  · right
    have hs1 : (step3IncrementClick s v).selectedProducts =
        step3UpdateProductQuantity s.selectedProducts v
          (selectedQuantityOf s.selectedProducts v.id + 1) := by
      simp [step3IncrementClick, hg]
    have hq0 : 0 ≤ selectedQuantityOf s.selectedProducts v.id :=
      selectedQuantityOf_nonneg _ _ hnn
    have hq : 0 < selectedQuantityOf s.selectedProducts v.id + 1 := by omega
    constructor
    · rw [hs1, totalSelectedItems_step3Upd _ _ _ hq]
      have hcap : caseSizeCapacity s.selectedCaseSize = cs.quantity := by
        rw [caseSizeCapacity.eq_def, hcs]
        simp only
        rw [if_neg (by omega)]
      have hroom := hg.2
      rw [hcap] at hroom
      omega
    · intro r m hr hm
      rw [hs1, selectedQuantityOf_step3Upd _ _ _ hq]
      have hmax := hg.1
      simp [isAtMaxQuantity, hr, hm] at hmax
      omega
  · left
    simp [step3IncrementClick]
    intro h1 h2
    exact absurd ⟨by simp [h1], h2⟩ hg

/-- C1 (witness for the amended theorem): concrete instantiation at
`stateCase6`. -/
theorem step3IncrementClick_respects_bounds_witness :
    step3IncrementClick stateCase6 wineA = stateCase6 ∨
      (totalSelectedItems
          (step3IncrementClick stateCase6 wineA).selectedProducts ≤
          case6.quantity ∧
        ∀ r m, getCaseRestrictions stateCase6.selectedCaseSize wineA = some r →
          r.max = some m →
          selectedQuantityOf
              (step3IncrementClick stateCase6 wineA).selectedProducts
              wineA.id ≤ m) :=
  step3IncrementClick_respects_bounds stateCase6 wineA case6 (by decide)
    (by decide) (by decide)

/-! ## C2 -/

/-- C2: `selectCaseSize` installs the new case size and resets the
selling plan, main products, add-ons and error map, leaving every other
field untouched (cascading reset). -/
theorem selectCaseSize_cascading_reset (s : WineClubFormState)
    (c : CaseSize) :
    (selectCaseSize c s).selectedCaseSize = some c ∧
    (selectCaseSize c s).selectedSellingPlan = none ∧
    (selectCaseSize c s).selectedProducts = [] ∧
    (selectCaseSize c s).selectedAddOns = [] ∧
    (selectCaseSize c s).errors = emptyErrors ∧
    (selectCaseSize c s).currentStep = s.currentStep ∧
    (selectCaseSize c s).isReviewing = s.isReviewing ∧
    (selectCaseSize c s).isSubmitting = s.isSubmitting :=
  ⟨rfl, rfl, rfl, rfl, rfl, rfl, rfl, rfl⟩

/-! ## C5 -/

/-- C5 (counterexample): with no case size selected, `selectSellingPlan`
still installs the plan — nothing is rejected. -/
theorem selectSellingPlan_sets_plan_without_caseSize :
    initialState.selectedCaseSize = none ∧
    (selectSellingPlan planMonthly initialState).selectedSellingPlan =
      some planMonthly :=
  ⟨rfl, rfl⟩

/-- C5 (amended): `selectSellingPlan` performs no validation of its own —
it always sets the plan and clears errors (and never throws, being a pure
update); the no-case-size situation is instead prevented upstream: with
no case size selected at step 1, the guarded next-step handler records a
case-size error and stays on step 1, so step 2 is unreachable. -/
theorem selectSellingPlan_unconditional_navigation_guarded
    (s : WineClubFormState) (p : SellingPlan) (club : WineClubDetails) :
    (selectSellingPlan p s).selectedSellingPlan = some p ∧
    (selectSellingPlan p s).errors = emptyErrors ∧
    (selectSellingPlan p s).currentStep = s.currentStep ∧
    (s.currentStep = 1 → s.selectedCaseSize = none →
      (guardedNextStep club s).currentStep = 1 ∧
      (guardedNextStep club s).errors.caseSize =
        some "Please select a case size") := by
  refine ⟨rfl, rfl, rfl, fun h1 h2 => ?_⟩
  simp [guardedNextStep, validateCurrentStep, h1, h2, setError]

/-- C5 (witness for the amended theorem): concrete instantiation at the
initial state (step 1, no case size). -/
theorem selectSellingPlan_unconditional_witness :
    (selectSellingPlan planMonthly initialState).selectedSellingPlan =
      some planMonthly ∧
    (guardedNextStep clubNoMovOnly initialState).currentStep = 1 ∧
    (guardedNextStep clubNoMovOnly initialState).errors.caseSize =
      some "Please select a case size" := by
  have h := selectSellingPlan_unconditional_navigation_guarded initialState
    planMonthly clubNoMovOnly
  exact ⟨h.1, (h.2.2.2 rfl rfl).1, (h.2.2.2 rfl rfl).2⟩

/-! ## C3 -/

/-- State with a 50%-discount selling plan selected. -/
def statePlan50 : WineClubFormState :=
  { initialState with selectedSellingPlan := some planMonthly }

/-- C3: `calculatePrice` charges full retail (`10 × 2 = 20`) even though
the selected selling plan carries a 50% percentage discount descriptor —
neither the individual-price tier nor the selling-plan tier of the
documented resolution order is applied (the function's own comments and
its FR-018 reference notwithstanding). -/
theorem calculatePrice_ignores_discount_tiers :
    statePlan50.selectedSellingPlan = some planMonthly ∧
    planMonthly.sellingPlanClubDiscount =
      some { fixedAmount := 50, fixedType := .PERCENTAGE,
             description := none } ∧
    wineB.retailPrice = some 10 ∧
    calculatePrice wineB 2 statePlan50 = 20 := by
  refine ⟨rfl, rfl, rfl, ?_⟩
  norm_num [calculatePrice, wineB]

/-! ## C4 -/

/-- Step-3 state with $80 of wine selected in the 6-bottle case. -/
def stateMov80 : WineClubFormState :=
  { initialState with
    currentStep := 3
    selectedCaseSize := some case6
    selectedProducts :=
      [{ productVariant := wineB, quantity := 8, isAddOn := false,
         calculatedPrice := some 80 }] }

/-- C4: `validateCurrentStep` enforces the $100 minimum order value at
step 3 even though the club's `movOnly` flag is `false` — the flag is
never consulted, contradicting the documented gating of the MOV check. -/
theorem validateCurrentStep_mov_ignores_movOnly :
    clubNoMovOnly.movOnly = false ∧
    stateMov80.selectedProducts ≠ [] ∧
    (calculateTotalPrice stateMov80).subscriptionTotal = some 80 ∧
    (validateCurrentStep clubNoMovOnly stateMov80).1 = false ∧
    ((validateCurrentStep clubNoMovOnly stateMov80).2).errors.quantity.isSome
      = true := by
  refine ⟨rfl, by simp [stateMov80], ?_, ?_, ?_⟩
  · norm_num [calculateTotalPrice, stateMov80, jsAdd]
  · norm_num [validateCurrentStep, stateMov80, clubNoMovOnly, case6,
      calculateTotalPrice, jsAdd, jsLt, wineB]
  · norm_num [validateCurrentStep, stateMov80, clubNoMovOnly, case6,
      calculateTotalPrice, jsAdd, jsLt, wineB, setError]

/-! ## C6 -/

/-- C6: a load after a save with the same club id within the 24-hour
window returns exactly the saved state; after the window, or under a
different club id, it returns null. -/
theorem saveWizardState_loadWizardState_roundtrip
    (s : WineClubFormState) (c c2 : String) (t t2 : ℤ) (st : WizardStore) :
    (t2 - t < staleWindowMs →
      (loadWizardState c t2 (saveWizardState s c t st)).1 = some s) ∧
    (staleWindowMs ≤ t2 - t →
      (loadWizardState c t2 (saveWizardState s c t st)).1 = none) ∧
    (c2 ≠ c →
      (loadWizardState c2 t2 (saveWizardState s c t st)).1 = none) := by
  refine ⟨fun h => ?_, fun h => ?_, fun h => ?_⟩
  · have hc : c = c ∧ t2 - t < staleWindowMs := ⟨rfl, h⟩
    simp [loadWizardState, saveWizardState, hc]
  · simp [loadWizardState, saveWizardState, not_lt.mpr h]
  · have hc : ¬(c = c2 ∧ t2 - t < staleWindowMs) := by
      intro hcc
      exact h hcc.1.symm
    simp [loadWizardState, saveWizardState, hc]

/-- C6 (witness): concrete round trip, expiry and mismatch. -/
theorem saveWizardState_loadWizardState_roundtrip_witness :
    (loadWizardState "club-1" 1000
        (saveWizardState initialState "club-1" 0 none)).1 =
      some initialState ∧
    (loadWizardState "club-1" staleWindowMs
        (saveWizardState initialState "club-1" 0 none)).1 = none ∧
    (loadWizardState "club-2" 1000
        (saveWizardState initialState "club-1" 0 none)).1 = none := by
  refine ⟨?_, ?_, ?_⟩
  · exact (saveWizardState_loadWizardState_roundtrip initialState "club-1"
      "club-2" 0 1000 none).1 (by decide)
  · exact (saveWizardState_loadWizardState_roundtrip initialState "club-1"
      "club-2" 0 staleWindowMs none).2.1 (by decide)
  · exact (saveWizardState_loadWizardState_roundtrip initialState "club-1"
      "club-2" 0 1000 none).2.2 (by decide)

/-! ## C10 -/

/-- C10: loading under a mismatched club id not only returns null but
removes the single stored record, so a subsequent load under the
original club id also returns null. -/
theorem loadWizardState_mismatch_clears_record
    (s : WineClubFormState) (c1 c2 : String) (t t1 t2 : ℤ)
    (st : WizardStore) (h : c2 ≠ c1) :
    (loadWizardState c2 t1 (saveWizardState s c1 t st)).1 = none ∧
    (loadWizardState c2 t1 (saveWizardState s c1 t st)).2 = none ∧
    (loadWizardState c1 t2
        (loadWizardState c2 t1 (saveWizardState s c1 t st)).2).1 = none := by
  have hc : ¬(c1 = c2 ∧ t1 - t < staleWindowMs) := by
    intro hcc
    exact h hcc.1.symm
  have hmain : loadWizardState c2 t1 (saveWizardState s c1 t st) =
      (none, none) := by
    simp [loadWizardState, saveWizardState, hc]
  refine ⟨by rw [hmain], by rw [hmain], ?_⟩
  rw [hmain]
  simp [loadWizardState]

/-- C10 (witness): mismatch within the window still clears the store. -/
theorem loadWizardState_mismatch_clears_record_witness :
    (loadWizardState "club-2" 500
        (saveWizardState initialState "club-1" 0 none)).1 = none ∧
    (loadWizardState "club-2" 500
        (saveWizardState initialState "club-1" 0 none)).2 = none ∧
    (loadWizardState "club-1" 600
        (loadWizardState "club-2" 500
          (saveWizardState initialState "club-1" 0 none)).2).1 = none :=
  loadWizardState_mismatch_clears_record initialState "club-1" "club-2"
    0 500 600 none (by decide)

/-! ## C7 -/

/-- C7 (counterexample): one pass of literal removal can reassemble a
forbidden substring: two overlapping `javascript:` spellings collapse
into a new `javascript:` URL that survives sanitization, so the output is
not free of `javascript:` for every input. -/
theorem sanitizeHtml_reassembles_javascript_url :
    sanitizeHtml ("jjavascript:avascript:alert(1)".toList) =
      "javascript:alert(1)".toList ∧
    hasSub ("javascript:".toList)
      (sanitizeHtml ("jjavascript:avascript:alert(1)".toList)) = true := by
  decide

/-- C7 (amended, scenario D): the documented example does sanitize as
specified — the script element is removed wholesale. -/
theorem sanitizeHtml_scenario_d :
    sanitizeHtml ("<script>alert(1)</script><p>Great wine</p>".toList) =
      "<p>Great wine</p>".toList := by
  decide

/-! ## C8 -/

/-- The listing failure modes of the claim: thrown fetch (network error
or timeout), non-2xx status, empty body, unparsable body, or a payload
that is not an array. -/
def isListingFailure : UpstreamResult → Bool
  | .fetchFailed => true
  | .response ok body =>
    !ok ||
      (match body with
       | .emptyBody => true
       | .notJson => true
       | .jsonVal (.arr _) => false
       | .jsonVal _ => true)

/-- The detail failure modes of the claim: as for the listing, with a
payload that is not a JSON object (arrays included: every field the
client then reads is absent, so the `id`/`name` check fails). -/
def isDetailFailure : UpstreamResult → Bool
  | .fetchFailed => true
  | .response ok body =>
    !ok ||
      (match body with
       | .emptyBody => true
       | .notJson => true
       | .jsonVal (.obj _) => false
       | .jsonVal _ => true)

/-- C8: under every modeled upstream failure the listing returns `[]` and
the detail fetch returns `none`; both embeddings are total functions, so
no exception can propagate. -/
theorem fetch_clients_collapse_upstream_errors (sd1 sd2 cid : String)
    (u1 u2 : UpstreamResult)
    (h1 : isListingFailure u1 = true) (h2 : isDetailFailure u2 = true) :
    fetchWineClubs sd1 u1 = [] ∧ fetchWineClubDetails sd2 cid u2 = none := by
  constructor
  · cases u1 with
    | fetchFailed => simp [fetchWineClubs]
    | response ok body =>
      cases ok with
      | false => cases body with
        | emptyBody => simp [fetchWineClubs]
        | notJson => simp [fetchWineClubs]
        | jsonVal j => simp [fetchWineClubs]
      | true =>
        cases body with
        | emptyBody => simp [fetchWineClubs]
        | notJson => simp [fetchWineClubs]
        | jsonVal j =>
          cases j with
          | arr xs => simp [isListingFailure] at h1
          | null => simp [fetchWineClubs]
          | bool b => simp [fetchWineClubs]
          | num q => simp [fetchWineClubs]
          | str s => simp [fetchWineClubs]
          | obj fs => simp [fetchWineClubs]
  · cases u2 with
    | fetchFailed => simp [fetchWineClubDetails]
    | response ok body =>
      cases ok with
      | false => cases body with
        | emptyBody => simp [fetchWineClubDetails]
        | notJson => simp [fetchWineClubDetails]
        | jsonVal j => simp [fetchWineClubDetails]
      | true =>
        cases body with
        | emptyBody => simp [fetchWineClubDetails]
        | notJson => simp [fetchWineClubDetails]
        | jsonVal j =>
          cases j with
          | obj fs => simp [isDetailFailure] at h2
          | arr xs => simp [fetchWineClubDetails, Json.getField, jsTruthy]
          | null => simp [fetchWineClubDetails]
          | bool b => simp [fetchWineClubDetails]
          | num q => simp [fetchWineClubDetails]
          | str s => simp [fetchWineClubDetails]

/-- C8 (witness): a network failure on the listing and a non-object
(string) payload on the detail endpoint. -/
theorem fetch_clients_collapse_upstream_errors_witness :
    fetchWineClubs "shop.example" .fetchFailed = [] ∧
    fetchWineClubDetails "shop.example" "club-1"
      (.response true (.jsonVal (.str "oops"))) = none :=
  fetch_clients_collapse_upstream_errors "shop.example" "shop.example"
    "club-1" .fetchFailed (.response true (.jsonVal (.str "oops")))
    (by decide) (by decide)

/-! ## C9 -/

theorem mem_insertByKey (key : α → ℚ) (x : α) (l : List α) (z : α) :
    z ∈ insertByKey key x l ↔ z = x ∨ z ∈ l := by
  induction l with
  | nil => simp [insertByKey]
  | cons y ys ih =>
    by_cases hk : key x ≤ key y
    · simp [insertByKey, hk]
    · simp [insertByKey, hk, ih]
      tauto

theorem pairwise_insertByKey (key : α → ℚ) (x : α) (l : List α)
    (hl : l.Pairwise (fun a b => key a ≤ key b)) :
    (insertByKey key x l).Pairwise (fun a b => key a ≤ key b) := by
  induction l with
  | nil => simp [insertByKey]
  | cons y ys ih =>
    rcases List.pairwise_cons.mp hl with ⟨hy, hys⟩
    by_cases hk : key x ≤ key y
    · rw [insertByKey, if_pos hk]
      refine List.pairwise_cons.mpr ⟨?_, hl⟩
      intro z hz
      rcases List.mem_cons.mp hz with rfl | hz2
      · exact hk
      · exact le_trans hk (hy z hz2)
    · rw [insertByKey, if_neg hk]
      refine List.pairwise_cons.mpr ⟨?_, ih hys⟩
      intro z hz
      rcases (mem_insertByKey key x ys z).mp hz with rfl | hz2
      · exact (not_le.mp hk).le
      · exact hy z hz2

theorem pairwise_sortByKey (key : α → ℚ) (l : List α) :
    (sortByKey key l).Pairwise (fun a b => key a ≤ key b) := by
  induction l with
  | nil => simp [sortByKey]
  | cons x xs ih => exact pairwise_insertByKey key x _ ih

theorem filter_insertByKey (key : α → ℚ) (x : α) (l : List α) (k : ℚ) :
    (insertByKey key x l).filter (fun a => key a = k) =
      if key x = k then x :: l.filter (fun a => key a = k)
      else l.filter (fun a => key a = k) := by
  induction l with
  | nil =>
    by_cases hx : key x = k <;> simp [insertByKey, hx]
  | cons y ys ih =>
    by_cases hk : key x ≤ key y
    · rw [insertByKey, if_pos hk]
      by_cases hx : key x = k <;> simp [List.filter_cons, hx]
    · rw [insertByKey, if_neg hk]
      by_cases hx : key x = k
      · have hy : ¬(key y = k) := fun h => hk (le_of_eq (hx.trans h.symm))
        simp [List.filter_cons, hy, ih, hx]
      · simp [List.filter_cons, ih, hx]

theorem filter_sortByKey (key : α → ℚ) (l : List α) (k : ℚ) :
    (sortByKey key l).filter (fun a => key a = k) =
      l.filter (fun a => key a = k) := by
  induction l with
  | nil => rfl
  | cons x xs ih =>
    rw [sortByKey, filter_insertByKey]
    by_cases hx : key x = k <;> simp [List.filter_cons, hx, ih]

/-- Listing payload entry: a valid club at position 1. -/
def clubJsonA : Json :=
  .obj [("id", .str "a"), ("name", .str "Club A"),
        ("shopifyId", .str "sa"), ("type", .str "Manual"),
        ("caseType", .str "Bottle"), ("position", .num 1)]

/-- Listing payload entry: a valid club at position 0. -/
def clubJsonB : Json :=
  .obj [("id", .str "b"), ("name", .str "Club B"),
        ("shopifyId", .str "sb"), ("type", .str "Manual"),
        ("caseType", .str "Bottle"), ("position", .num 0)]

/-- C9 (counterexample): a club with `position = 0` is sorted after a
club with `position = 1` (the comparator's `a.position || 999` treats the
falsy `0` as `999`), so the output is not ascending in the `position`
field. -/
theorem fetchWineClubs_position_zero_sorts_last :
    (fetchWineClubs "shop.example"
        (.response true (.jsonVal (.arr [clubJsonA, clubJsonB])))).map
        (fun c => c.position) = [1, 0] ∧
    ¬((fetchWineClubs "shop.example"
        (.response true (.jsonVal (.arr [clubJsonA, clubJsonB])))).map
        (fun c => c.position)).Pairwise (fun a b => a ≤ b) := by
  decide

/-- C9 (amended): the listing is sorted ascending in the effective key
`position || 999` (so missing, non-numeric and zero positions all count
as 999), and clubs with equal effective keys keep the order in which
their entries appeared in the response. -/
theorem fetchWineClubs_sorted_by_effective_position (sd : String)
    (es : List Json) (k : ℚ) (hsd : sd ≠ "") :
    (fetchWineClubs sd (.response true (.jsonVal (.arr es)))).Pairwise
      (fun a b => sortPositionKey a ≤ sortPositionKey b) ∧
    (fetchWineClubs sd (.response true (.jsonVal (.arr es)))).filter
        (fun c => sortPositionKey c = k) =
      (listedValidClubs es).filter (fun c => sortPositionKey c = k) := by
  have hf : fetchWineClubs sd (.response true (.jsonVal (.arr es))) =
      sortByKey sortPositionKey (listedValidClubs es) := by
    simp [fetchWineClubs, hsd]
  rw [hf]
  exact ⟨pairwise_sortByKey _ _, filter_sortByKey _ _ _⟩

/-- C9 (witness for the amended theorem): concrete listing with the two
fixture clubs, tie key 999. -/
theorem fetchWineClubs_sorted_by_effective_position_witness :
    (fetchWineClubs "shop.example"
        (.response true (.jsonVal (.arr [clubJsonA, clubJsonB])))).Pairwise
      (fun a b => sortPositionKey a ≤ sortPositionKey b) ∧
    (fetchWineClubs "shop.example"
        (.response true (.jsonVal (.arr [clubJsonA, clubJsonB])))).filter
        (fun c => sortPositionKey c = 999) =
      (listedValidClubs [clubJsonA, clubJsonB]).filter
        (fun c => sortPositionKey c = 999) :=
  fetchWineClubs_sorted_by_effective_position "shop.example"
    [clubJsonA, clubJsonB] 999 (by decide)
